import Mathlib

/-!
Shallow embedding of the ray/scene interaction core of SimpleRaytracer
(src/main.cpp) over the real numbers, together with theorems settling the
frozen claims about its specification.

Floating-point `f32`/`f64` values are modelled as real numbers; the
pseudo-random source `rand()` is modelled as an explicit stream of reals
consumed one value at a time; the unbounded rejection-sampling loop of
`random_point_in_unit_sphere` is modelled with an explicit fuel bound
(`none` = the loop did not accept a point within `fuel` attempts).
-/

namespace SimpleRaytracer

/-- Modelled from the spec: the vector/math primitive library (`types.h`,
assumed available, out of scope of the source core) supplies a 3-component
float vector `v3f`; components are modelled as reals. -/
structure v3f where
  x : ℝ
  y : ℝ
  z : ℝ

/-- Modelled from the spec: colours are `v4f` values in the source, used
throughout with their three colour channels (constructed from three
components); modelled by the three channels. -/
structure v4f where
  r : ℝ
  g : ℝ
  b : ℝ

instance : Add v3f := ⟨fun a b => ⟨a.x + b.x, a.y + b.y, a.z + b.z⟩⟩
instance : Sub v3f := ⟨fun a b => ⟨a.x - b.x, a.y - b.y, a.z - b.z⟩⟩
instance : Neg v3f := ⟨fun a => ⟨-a.x, -a.y, -a.z⟩⟩
instance : HMul ℝ v3f v3f := ⟨fun s v => ⟨s * v.x, s * v.y, s * v.z⟩⟩
instance : HMul v3f ℝ v3f := ⟨fun v s => ⟨v.x * s, v.y * s, v.z * s⟩⟩

instance : Add v4f := ⟨fun a b => ⟨a.r + b.r, a.g + b.g, a.b + b.b⟩⟩
instance : HMul ℝ v4f v4f := ⟨fun s v => ⟨s * v.r, s * v.g, s * v.b⟩⟩

theorem v3f.add_def (a b : v3f) : a + b = ⟨a.x + b.x, a.y + b.y, a.z + b.z⟩ := rfl
theorem v3f.sub_def (a b : v3f) : a - b = ⟨a.x - b.x, a.y - b.y, a.z - b.z⟩ := rfl
theorem v3f.neg_def (a : v3f) : -a = ⟨-a.x, -a.y, -a.z⟩ := rfl
theorem v3f.smul_def (s : ℝ) (v : v3f) : s * v = ⟨s * v.x, s * v.y, s * v.z⟩ := rfl
theorem v3f.mul_scalar_def (v : v3f) (s : ℝ) : v * s = ⟨v.x * s, v.y * s, v.z * s⟩ := rfl
theorem v4f.chan_add_def (a b : v4f) : a + b = ⟨a.r + b.r, a.g + b.g, a.b + b.b⟩ := rfl
theorem v4f.chan_smul_def (s : ℝ) (v : v4f) : s * v = ⟨s * v.r, s * v.g, s * v.b⟩ := rfl

/-- Modelled from the spec: dot product of the external math library. -/
def dot (a b : v3f) : ℝ := a.x * b.x + a.y * b.y + a.z * b.z

/-- Modelled from the spec: squared Euclidean norm of the math library. -/
def norm_squared (v : v3f) : ℝ := dot v v

/-- Modelled from the spec: Euclidean norm of the math library. -/
noncomputable def norm (v : v3f) : ℝ := Real.sqrt (norm_squared v)

/-- Modelled from the spec: `normalize` of the math library divides a vector
by its norm (the source's `normalize(0)` would produce NaN; real division by
zero in the model yields the zero vector, which the development never relies
on for a proved claim). -/
noncomputable def normalize (v : v3f) : v3f :=
  ⟨v.x / norm v, v.y / norm v, v.z / norm v⟩

/-- Modelled from the spec: per-channel (Hadamard) product used to attenuate
colours. -/
def hadamard (a b : v4f) : v4f := ⟨a.r * b.r, a.g * b.g, a.b * b.b⟩

/-- Modelled from the spec: `near_zero` of the math library reports whether a
vector is numerically near-zero, each component within a small fixed
tolerance. -/
def NEAR_ZERO_EPS : ℝ := 1e-8

/-- Modelled from the spec: the near-zero test itself. -/
def near_zero (v : v3f) : Prop :=
  |v.x| < NEAR_ZERO_EPS ∧ |v.y| < NEAR_ZERO_EPS ∧ |v.z| < NEAR_ZERO_EPS

noncomputable instance (v : v3f) : Decidable (near_zero v) := by
  unfold near_zero; infer_instance

/-- Modelled from the spec: `F32_MAX` of `types.h`, the largest finite `f32`,
exactly `(2^24 - 1) * 2^104`. -/
def F32_MAX : ℝ := (2 ^ 24 - 1) * 2 ^ 104

/-- Modelled from the spec: `F32_MIN` of `types.h`, the most negative finite
`f32` (the source initializes `intersection_test`'s result with it and
documents a negative result as "behind the camera"). -/
def F32_MIN : ℝ := -F32_MAX

/-- Source constants `COLOUR_WHITE` and `COLOUR_BLACK` (main.cpp lines 23-24). -/
def COLOUR_WHITE : v4f := ⟨1, 1, 1⟩

/-- Source constant `COLOUR_BLACK`. -/
def COLOUR_BLACK : v4f := ⟨0, 0, 0⟩

/-- Embeds `struct Ray` (main.cpp lines 36-49): origin and direction. -/
structure Ray where
  origin : v3f
  dir : v3f

/-- Embeds the `Ray(v3f rayOrigin, v3f rayDir, bool normalized = true)`
constructor (main.cpp lines 38-43).  The member-initializer list runs first
and initializes `dir` with the incoming `rayDir` argument; the constructor
body `if (!normalized) rayDir = normalize(rayDir);` then reassigns only the
local parameter `rayDir`, a dead store — the stored member `dir` is the
argument unchanged on both paths. -/
noncomputable def Ray.construct (rayOrigin rayDir : v3f) (normalized : Bool) : Ray :=
  let _deadStore := if normalized then rayDir else normalize rayDir
  { origin := rayOrigin, dir := rayDir }

/-- Embeds `Ray::at` (main.cpp line 45): `origin + dir*t`. -/
def Ray.at' (ray : Ray) (t : ℝ) : v3f := ray.origin + ray.dir * t

/-- Embeds `struct Sphere` (main.cpp lines 51-55): a plain aggregate with no
constructor and no validation of the radius. -/
structure Sphere where
  pos : v3f
  radius : ℝ

/-- Embeds aggregate initialization of `Sphere` (e.g. `Sphere sphere = {c, r};`
at main.cpp line 308): always succeeds, no precondition is checked. -/
def sphere_construct (pos : v3f) (radius : ℝ) : Sphere := ⟨pos, radius⟩

/-- Embeds `Material::Type` (main.cpp lines 61-67). -/
inductive MaterialType where
  | NONE
  | DIFFUSE
  | METAL
  | DIALECTRIC
deriving DecidableEq

/-- Embeds `struct Material` (main.cpp lines 57-77). -/
structure Material where
  type : MaterialType
  colour : v4f
  roughness : ℝ
  n : ℝ

/-- Embeds `create_diffuse_material` (main.cpp lines 87-93); `= {}`
zero-initializes the remaining fields. -/
def create_diffuse_material (colour : v4f) : Material :=
  { type := MaterialType.DIFFUSE, colour := colour, roughness := 0, n := 0 }

/-- Embeds `create_metal_material` (main.cpp lines 95-102). -/
def create_metal_material (colour : v4f) (roughness : ℝ) : Material :=
  { type := MaterialType.METAL, colour := colour, roughness := roughness, n := 0 }

/-- Embeds `create_dialectric_material` (main.cpp lines 104-111). -/
def create_dialectric_material (refractiveIndex : ℝ) : Material :=
  { type := MaterialType.DIALECTRIC, colour := COLOUR_WHITE, roughness := 0,
    n := refractiveIndex }

/-- Embeds `struct RenderObject` (main.cpp lines 81-85). -/
structure RenderObject where
  material : Material
  geometry : Sphere

/-- Embeds `intersection_test` (main.cpp lines 113-142): solves the sphere
quadratic with `a = 1` (the direction is assumed normalized), returning the
smaller root when the discriminant is positive, the double root when it is
zero, and the sentinel `F32_MIN` (the initial value of `tResult`) when it is
negative. -/
noncomputable def intersection_test (ray : Ray) (sphere : Sphere) : ℝ :=
  let a : ℝ := 1
  let b : ℝ := 2 * dot ray.dir (ray.origin - sphere.pos)
  let c : ℝ := dot (ray.origin - sphere.pos) (ray.origin - sphere.pos)
                 - sphere.radius * sphere.radius
  let discriminant : ℝ := b * b - 4 * a * c
  if 0 < discriminant then (-b - Real.sqrt discriminant) / (2 * a)
  else if discriminant = 0 then -b / (2 * a)
  else F32_MIN

/-- The discriminant computed by `intersection_test`, named for use in
theorem statements. -/
def discriminant (ray : Ray) (sphere : Sphere) : ℝ :=
  let b : ℝ := 2 * dot ray.dir (ray.origin - sphere.pos)
  let c : ℝ := dot (ray.origin - sphere.pos) (ray.origin - sphere.pos)
                 - sphere.radius * sphere.radius
  b * b - 4 * 1 * c

/-- The `b` coefficient of the `intersection_test` quadratic, named for use
in theorem statements. -/
def quadratic_b (ray : Ray) (sphere : Sphere) : ℝ :=
  2 * dot ray.dir (ray.origin - sphere.pos)

/-- Modelled from the spec: the pseudo-random source producing uniform values
in `[0,1)` (`rand()` of the C runtime), as an explicit stream of reals with a
cursor; each draw consumes one stream value. -/
structure RNG where
  stream : ℕ → ℝ
  idx : ℕ

/-- One draw from the stream. -/
def RNG.next (g : RNG) : ℝ × RNG := (g.stream g.idx, ⟨g.stream, g.idx + 1⟩)

/-- Embeds `random_f32()` (main.cpp lines 150-153): one uniform draw. -/
def random_f32 (g : RNG) : ℝ × RNG := g.next

/-- Embeds `random_f64()` (main.cpp lines 145-148): one uniform draw. -/
def random_f64 (g : RNG) : ℝ × RNG := g.next

/-- Embeds `random_f32(f32 min, f32 max)` (main.cpp lines 155-159): asserts
`min < max` (modelled as `none` — the process aborts — when the assertion
fails) and rescales one uniform draw into `[min, max)`. -/
noncomputable def random_f32_range (g : RNG) (min max : ℝ) : Option (ℝ × RNG) :=
  if min < max then
    let u := random_f32 g
    some (u.1 * (max - min) + min, u.2)
  else none

/-- Embeds `random_v3f(f32 min, f32 max)` (main.cpp lines 165-168): three
range draws.  The C++ argument evaluation order inside the `v3f(...)`
constructor call is unspecified; the model fixes left-to-right (x, y, z).
Concrete theorems below only use streams that are constant across the three
draws, so they are insensitive to this choice. -/
noncomputable def random_v3f_range (g : RNG) (min max : ℝ) : Option (v3f × RNG) :=
  match random_f32_range g min max with
  | none => none
  | some (a, g1) =>
    match random_f32_range g1 min max with
    | none => none
    | some (b, g2) =>
      match random_f32_range g2 min max with
      | none => none
      | some (c, g3) => some (⟨a, b, c⟩, g3)

/-- Embeds `random_point_in_unit_sphere` (main.cpp lines 170-184): rejection
sampling of `random_v3f(-1, 1)` until `norm(randomPoint) <= 1`.  The source
loop is unbounded; `fuel` bounds the number of attempts in the model and
`none` means no point was accepted within `fuel` attempts. -/
noncomputable def random_point_in_unit_sphere : ℕ → RNG → Option (v3f × RNG)
  | 0, _ => none
  | fuel + 1, g =>
    match random_v3f_range g (-1) 1 with
    | none => none
    | some (p, g1) =>
      if norm p ≤ 1 then some (p, g1) else random_point_in_unit_sphere fuel g1

/-- Embeds `random_unit_vector` (main.cpp lines 186-191): a unit-sphere
sample, normalized. -/
noncomputable def random_unit_vector (fuel : ℕ) (g : RNG) : Option (v3f × RNG) :=
  match random_point_in_unit_sphere fuel g with
  | none => none
  | some (p, g1) => some (normalize p, g1)

/-- Embeds `random_point_in_sphere` (main.cpp lines 193-197): a unit-sphere
sample scaled by the radius and translated to the centre. -/
noncomputable def random_point_in_sphere (fuel : ℕ) (sphere : Sphere) (g : RNG) :
    Option (v3f × RNG) :=
  match random_point_in_unit_sphere fuel g with
  | none => none
  | some (p, g1) => some (p * sphere.radius + sphere.pos, g1)

/-- Embeds `reflect_direction` (main.cpp lines 227-232):
`dir + 2*normal*(-dot(dir, normal))`. -/
def reflect_direction (dir normal : v3f) : v3f :=
  let projectedDistance := -dot dir normal
  dir + (2 * projectedDistance) * normal

/-- Embeds `reflectance` (main.cpp lines 241-247), Schlick's approximation. -/
noncomputable def reflectance (cosine refractRatio : ℝ) : ℝ :=
  let r0 := ((1 - refractRatio) / (1 + refractRatio)) ^ 2
  r0 + (1 - r0) * (1 - cosine) ^ 5

/-- Source constant `MIN_T` of `cast_ray` (main.cpp line 257). -/
def MIN_T : ℝ := 0.001

/-- The current best hit tracked by the intersection loop of `cast_ray`
(main.cpp lines 260-280): the fields `tClosest`, `intersectPoint`,
`intersectNormal` and `material` that the loop updates together. -/
structure HitInfo where
  t : ℝ
  point : v3f
  normal : v3f
  material : Material

/-- The `HitInfo` the loop body of `cast_ray` records for `object` when its
intersection parameter `t` is accepted (main.cpp lines 274-278). -/
noncomputable def mk_hit (ray : Ray) (object : RenderObject) : HitInfo :=
  let t := intersection_test ray object.geometry
  { t := t
    point := ray.at' t
    normal := normalize (ray.at' t - object.geometry.pos)
    material := object.material }

/-- Embeds the intersection loop of `cast_ray` (main.cpp lines 266-280):
scans the objects in order, accepting `t` when `MIN_T < t` and `t` is
strictly below the current closest. -/
noncomputable def scan_objects (ray : Ray) :
    List RenderObject → ℝ → Option HitInfo → Option HitInfo
  | [], _, best => best
  | object :: rest, tClosest, best =>
    let t := intersection_test ray object.geometry
    if MIN_T < t ∧ t < tClosest then
      scan_objects ray rest t (some (mk_hit ray object))
    else
      scan_objects ray rest tClosest best

/-- The nearest-hit resolution of `cast_ray`: the loop started with
`tClosest = F32_MAX` and no material (main.cpp lines 260-263); `none`
corresponds to the post-loop test `tClosest != F32_MAX && tClosest > 0`
failing (no accepted hit — every accepted `t` satisfies
`MIN_T < t < F32_MAX`). -/
noncomputable def resolve_hit (ray : Ray) (objects : List RenderObject) :
    Option HitInfo :=
  scan_objects ray objects F32_MAX none

/-- Embeds the no-collision branch of `cast_ray` (main.cpp lines 363-368):
the vertical white-to-sky-blue gradient. -/
def background_gradient (ray : Ray) : v4f :=
  let ratio := 0.5 * (ray.dir.y + 1)
  (1 - ratio) * COLOUR_WHITE + ratio * (⟨0.5, 0.8, 0.9⟩ : v4f)

/-- The possibly roughness-perturbed reflected direction of the metal branch
of `cast_ray` (main.cpp lines 301-312): the mirror reflection, replaced —
when `roughness > 0` — by the direction from the hit point to a random point
in the sphere of radius `roughness` around `intersectPoint + reflectedDir`. -/
noncomputable def metal_reflected_dir (ray : Ray) (hit : HitInfo) (fuel : ℕ)
    (g : RNG) : Option (v3f × RNG) :=
  let reflectedDir := reflect_direction ray.dir hit.normal
  if 0 < hit.material.roughness then
    match random_point_in_sphere fuel
        (sphere_construct (hit.point + reflectedDir) hit.material.roughness) g with
    | none => none
    | some (randomPoint, g1) => some (randomPoint - hit.point, g1)
  else some (reflectedDir, g)

/-- The scatter direction of the diffuse branch of `cast_ray` (main.cpp lines
289-291): `scatterDirection = randomUnit + intersectNormal`, replaced by the
normal when `near_zero(scatterDirection + intersectNormal)` holds (the source
tests the sum with the normal added a second time, not the scatter direction
itself). -/
noncomputable def diffuse_scatter_dir (randomUnit intersectNormal : v3f) : v3f :=
  let scatterDirection := randomUnit + intersectNormal
  if near_zero (scatterDirection + intersectNormal) then intersectNormal
  else scatterDirection

/-- The new ray direction of the dielectric branch of `cast_ray` (main.cpp
lines 324-355), given the uniform draw `u` compared against the Schlick
reflectance: reflect on total internal reflection or a reflectance success,
otherwise refract by the vector form of Snell's law. -/
noncomputable def dialectric_new_dir (ray : Ray) (hit : HitInfo) (u : ℝ) : v3f :=
  let worldIndex : ℝ := 1
  let refractRatio0 := worldIndex / hit.material.n
  let refractRatio :=
    if 0 < dot ray.dir hit.normal then 1 / refractRatio0 else refractRatio0
  let cosTheta := dot (-ray.dir) hit.normal
  let sinTheta := Real.sqrt (1 - cosTheta * cosTheta)
  let internalReflection := 1 < refractRatio * sinTheta
  let shouldReflect := u < reflectance cosTheta refractRatio
  if internalReflection ∨ shouldReflect then
    reflect_direction ray.dir hit.normal
  else
    let rayPerpendicular := refractRatio * (ray.dir + cosTheta * hit.normal)
    let rayParallel :=
      (-Real.sqrt |1 - norm_squared rayPerpendicular|) * hit.normal
    rayPerpendicular + rayParallel

/-- Embeds `cast_ray` (main.cpp lines 250-371).  `maxDepth` is a `u32`, so
`maxDepth <= 0` is exactly `maxDepth = 0`; recursion is structural on it.
`fuel` bounds each rejection-sampling loop; a result of `none` means some
sampling loop did not accept within `fuel` attempts (the source would still
be looping).  The material fall-through for `Type::NONE` leaves
`resultColour` as the zero-initialized `v4f()`. -/
noncomputable def cast_ray (fuel : ℕ) (objects : List RenderObject) :
    Ray → ℕ → RNG → Option (v4f × RNG)
  | _, 0, g => some (COLOUR_BLACK, g)
  | ray, maxDepth + 1, g =>
    match resolve_hit ray objects with
    | none => some (background_gradient ray, g)
    | some hit =>
      match hit.material.type with
      | MaterialType.DIFFUSE =>
        match random_unit_vector fuel g with
        | none => none
        | some (randomUnit, g1) =>
          let scatterDirection := diffuse_scatter_dir randomUnit hit.normal
          let reflectRay := Ray.construct hit.point scatterDirection false
          match cast_ray fuel objects reflectRay maxDepth g1 with
          | none => none
          | some (rayColour, g2) =>
            some (hadamard hit.material.colour rayColour, g2)
      | MaterialType.METAL =>
        match metal_reflected_dir ray hit fuel g with
        | none => none
        | some (reflectedDir, g1) =>
          let reflectedRay := Ray.construct hit.point reflectedDir false
          if 0 < dot reflectedDir hit.normal then
            match cast_ray fuel objects reflectedRay maxDepth g1 with
            | none => none
            | some (rayColour, g2) =>
              some (hadamard hit.material.colour rayColour, g2)
          else some (COLOUR_BLACK, g1)
      | MaterialType.DIALECTRIC =>
        let u := random_f64 g
        let newRayDir := dialectric_new_dir ray hit u.1
        let newRay := Ray.construct hit.point newRayDir false
        match cast_ray fuel objects newRay maxDepth u.2 with
        | none => none
        | some (rayColour, g2) =>
          some (hadamard hit.material.colour rayColour, g2)
      | MaterialType.NONE => some (⟨0, 0, 0⟩, g)

/-! Helper lemmas. -/

theorem sqrt_eval {a b : ℝ} (hb : 0 ≤ b) (h : b * b = a) : Real.sqrt a = b := by
  rw [← h]; exact Real.sqrt_mul_self hb

theorem sqrt_four : Real.sqrt 4 = 2 := sqrt_eval (by norm_num) (by norm_num)

theorem sqrt_onefourfour : Real.sqrt 144 = 12 := sqrt_eval (by norm_num) (by norm_num)

/-- The source's degenerate-direction guard condition can never fire: for an
actual unit sample `r` and unit normal `n`, the tested vector
`scatterDirection + normal = r + n + n` has squared norm at least 1, so it is
never near-zero.  (Supporting observation for claim C5: the guard tests the
wrong vector, and the test it does perform is unsatisfiable.) -/
theorem diffuse_guard_unsatisfiable (r n : v3f)
    (hr : norm_squared r = 1) (hn : norm_squared n = 1) :
    ¬ near_zero (r + n + n) := by
  intro hz
  obtain ⟨hx, hy, hzc⟩ := hz
  simp only [norm_squared, dot] at hr hn
  simp only [v3f.add_def, NEAR_ZERO_EPS] at hx hy hzc
  have hx' := abs_lt.1 hx
  have hy' := abs_lt.1 hy
  have hz' := abs_lt.1 hzc
  nlinarith [sq_nonneg (r.x + n.x), sq_nonneg (r.y + n.y), sq_nonneg (r.z + n.z),
    hx'.1, hx'.2, hy'.1, hy'.2, hz'.1, hz'.2]

/-! Theorems for the claims. -/

/-- C4: `cast_ray` invoked with remaining depth 0 returns pure black
`(0,0,0)` immediately, for every ray, every scene, every sampling fuel and
every random state — the random state is returned untouched, so no
intersection resolution or scatter sampling happened. -/
theorem C4_depth_zero_black (fuel : ℕ) (objects : List RenderObject)
    (ray : Ray) (g : RNG) :
    cast_ray fuel objects ray 0 g = some (COLOUR_BLACK, g) := rfl

/-- C1: the claim fails on the code — the `normalized = false` constructor
path does not normalize the stored direction.  `Ray(origin, (0,0,-2), false)`
stores direction `(0,0,-2)`, whose dot product with itself is `4`, not `1`
(the constructor body normalizes the local parameter copy after the member
was already initialized). -/
theorem C1_scatter_ray_not_normalized :
    (Ray.construct ⟨0, 0, 0⟩ ⟨0, 0, -2⟩ false).dir = ⟨0, 0, -2⟩ ∧
    dot (Ray.construct ⟨0, 0, 0⟩ ⟨0, 0, -2⟩ false).dir
        (Ray.construct ⟨0, 0, 0⟩ ⟨0, 0, -2⟩ false).dir = 4 ∧
    (4 : ℝ) ≠ 1 := by
  refine ⟨rfl, ?_, by norm_num⟩
  simp [Ray.construct, dot]
  norm_num

/-- C5: the claim fails on the code — the diffuse guard tests
`near_zero(scatterDirection + intersectNormal)` instead of
`near_zero(scatterDirection)`.  With unit normal `(0,0,1)` and random unit
vector `(0,0,-1)` the summed scatter vector is exactly `(0,0,0)` (near-zero),
yet the guard does not fire and the zero vector is kept as the scatter
direction instead of the normal. -/
theorem C5_degenerate_guard_wrong_vector :
    near_zero ((⟨0, 0, -1⟩ : v3f) + ⟨0, 0, 1⟩) ∧
    diffuse_scatter_dir ⟨0, 0, -1⟩ ⟨0, 0, 1⟩ = ⟨0, 0, 0⟩ ∧
    ((⟨0, 0, 0⟩ : v3f) ≠ ⟨0, 0, 1⟩) := by
  refine ⟨?_, ?_, ?_⟩
  · simp [near_zero, v3f.add_def, NEAR_ZERO_EPS]
    norm_num
  · rw [diffuse_scatter_dir]
    rw [if_neg]
    · simp [v3f.add_def]
    · simp [near_zero, v3f.add_def, NEAR_ZERO_EPS]
      norm_num
  · intro h
    have := congrArg v3f.z h
    norm_num at this

/-- C10 counterexample: the claim fails for `Sphere` — aggregate construction
with a non-positive radius performs no validation and simply produces the
sphere, rather than failing fast. -/
theorem C10_counterexample :
    sphere_construct ⟨0, 0, 0⟩ (-1) = { pos := ⟨0, 0, 0⟩, radius := -1 } ∧
    (sphere_construct ⟨0, 0, 0⟩ (-1)).radius ≤ 0 := by
  refine ⟨rfl, ?_⟩
  simp [sphere_construct]

/-- C10 (amended): `random_f32(min, max)` with `min >= max` fails fast via
its assertion (modelled: returns `none`), while `Sphere` construction is an
unchecked aggregate that accepts any radius, including non-positive ones. -/
theorem C10_amended (g : RNG) (lo hi : ℝ) (h : hi ≤ lo) (pos : v3f) (r : ℝ) :
    random_f32_range g lo hi = none ∧
    sphere_construct pos r = { pos := pos, radius := r } := by
  refine ⟨?_, rfl⟩
  rw [random_f32_range, if_neg (not_lt.2 h)]

/-- C10 witness: the amended statement at a concrete invalid range and a
concrete non-positive radius. -/
theorem C10_witness :
    (0 : ℝ) ≤ 1 ∧
    random_f32_range ⟨fun _ => 0, 0⟩ 1 0 = none ∧
    sphere_construct ⟨0, 0, 0⟩ (-1) = { pos := (⟨0, 0, 0⟩ : v3f), radius := -1 } :=
  ⟨by norm_num,
   (C10_amended ⟨fun _ => 0, 0⟩ 1 0 (by norm_num) ⟨0, 0, 0⟩ (-1)).1,
   (C10_amended ⟨fun _ => 0, 0⟩ 1 0 (by norm_num) ⟨0, 0, 0⟩ (-1)).2⟩

/-- C2 counterexample: the "no hit" return of `intersection_test` is the
in-band numeric value `F32_MIN`, not a tagged optional: a ray/sphere pair
with negative discriminant returns `F32_MIN`, and a tangential configuration
with discriminant exactly `0` makes `intersection_test` report the very same
number as its genuine root — so the sentinel is a numeric `t` value and is
not distinguishable from every value the solver can report. -/
theorem C2_counterexample :
    discriminant ⟨⟨0, 0, 0⟩, ⟨0, 1, 0⟩⟩ ⟨⟨0, 0, -5⟩, 1⟩ < 0 ∧
    intersection_test ⟨⟨0, 0, 0⟩, ⟨0, 1, 0⟩⟩ ⟨⟨0, 0, -5⟩, 1⟩ = F32_MIN ∧
    discriminant ⟨⟨F32_MAX, 1, 0⟩, ⟨1, 0, 0⟩⟩ ⟨⟨0, 0, 0⟩, 1⟩ = 0 ∧
    intersection_test ⟨⟨F32_MAX, 1, 0⟩, ⟨1, 0, 0⟩⟩ ⟨⟨0, 0, 0⟩, 1⟩ = F32_MIN := by
  refine ⟨?_, ?_, ?_, ?_⟩
  · norm_num [discriminant, dot, v3f.sub_def]
  · norm_num [intersection_test, dot, v3f.sub_def]
  · norm_num [discriminant, dot, v3f.sub_def, F32_MAX]
  · norm_num [intersection_test, dot, v3f.sub_def, F32_MAX, F32_MIN]

/-- C2 (amended): on a negative discriminant `intersection_test` returns the
numeric sentinel `F32_MIN` (the most negative finite `f32`), which lies
strictly below the `MIN_T` threshold, so the nearest-hit filter always
rejects it — every accepted intersection parameter differs from it, although
it is an ordinary `f32` value rather than a tagged "no hit". -/
theorem C2_amended (ray : Ray) (sphere : Sphere)
    (h : discriminant ray sphere < 0) :
    intersection_test ray sphere = F32_MIN ∧ F32_MIN < MIN_T := by
  simp only [discriminant] at h
  constructor
  · simp only [intersection_test]
    rw [if_neg (by linarith), if_neg (by linarith)]
  · norm_num [F32_MIN, F32_MAX, MIN_T]

/-- C2 witness: the amended statement at the concrete miss configuration. -/
theorem C2_witness :
    discriminant ⟨⟨0, 0, 0⟩, ⟨0, 1, 0⟩⟩ ⟨⟨0, 0, 5⟩, 1⟩ < 0 ∧
    intersection_test ⟨⟨0, 0, 0⟩, ⟨0, 1, 0⟩⟩ ⟨⟨0, 0, 5⟩, 1⟩ = F32_MIN ∧
    F32_MIN < MIN_T := by
  have h : discriminant ⟨⟨0, 0, 0⟩, ⟨0, 1, 0⟩⟩ ⟨⟨0, 0, 5⟩, 1⟩ < 0 := by
    norm_num [discriminant, dot, v3f.sub_def]
  exact ⟨h, (C2_amended _ _ h).1, (C2_amended _ _ h).2⟩

/-- C8: for every ray (with unit direction, as the solver assumes) and every
sphere with non-negative discriminant, `intersection_test` returns the
smaller root `(-b - sqrt(discriminant)) / 2` — the double root `-b/2`
returned on a zero discriminant is that same expression. -/
theorem C8_smaller_root (ray : Ray) (sphere : Sphere)
    (hunit : dot ray.dir ray.dir = 1) (h : 0 ≤ discriminant ray sphere) :
    intersection_test ray sphere =
      (-(quadratic_b ray sphere) - Real.sqrt (discriminant ray sphere)) / 2 := by
  simp only [discriminant, quadratic_b] at h ⊢
  simp only [intersection_test]
  rcases lt_or_eq_of_le h with hpos | hzero
  · rw [if_pos hpos]
    norm_num
  · rw [if_neg (by linarith), if_pos hzero.symm, ← hzero, Real.sqrt_zero]
    norm_num

/-- C8 witness: the sphere centred at `(0,0,-5)` with radius 1, hit by the
ray from the origin along `(0,0,-1)`, reports `t = 4` (within the spec's
tolerance `1e-4` — here exactly). -/
theorem C8_witness :
    dot (⟨0, 0, -1⟩ : v3f) ⟨0, 0, -1⟩ = 1 ∧
    0 ≤ discriminant ⟨⟨0, 0, 0⟩, ⟨0, 0, -1⟩⟩ ⟨⟨0, 0, -5⟩, 1⟩ ∧
    intersection_test ⟨⟨0, 0, 0⟩, ⟨0, 0, -1⟩⟩ ⟨⟨0, 0, -5⟩, 1⟩ = 4 ∧
    |intersection_test ⟨⟨0, 0, 0⟩, ⟨0, 0, -1⟩⟩ ⟨⟨0, 0, -5⟩, 1⟩ - 4| ≤ 1e-4 := by
  have hu : dot (⟨0, 0, -1⟩ : v3f) ⟨0, 0, -1⟩ = 1 := by norm_num [dot]
  have hd : discriminant ⟨⟨0, 0, 0⟩, ⟨0, 0, -1⟩⟩ ⟨⟨0, 0, -5⟩, 1⟩ = 4 := by
    norm_num [discriminant, dot, v3f.sub_def]
  have hb : quadratic_b ⟨⟨0, 0, 0⟩, ⟨0, 0, -1⟩⟩ ⟨⟨0, 0, -5⟩, 1⟩ = -10 := by
    norm_num [quadratic_b, dot, v3f.sub_def]
  have ht : intersection_test ⟨⟨0, 0, 0⟩, ⟨0, 0, -1⟩⟩ ⟨⟨0, 0, -5⟩, 1⟩ = 4 := by
    rw [C8_smaller_root _ _ hu (by rw [hd]; norm_num), hd, hb, sqrt_four]
    norm_num
  exact ⟨hu, by rw [hd]; norm_num, ht, by rw [ht]; norm_num⟩

/-- Invariant of the intersection loop: if the scan of `l` with current
closest `tC` and current best `best` produces a hit `h`, then either `best`
already was `h` and nothing in `l` was accepted, or `h` was recorded for some
object of `l` whose parameter beats (strictly) every valid parameter before
it and (weakly) every valid parameter after it. -/
theorem scan_objects_spec (ray : Ray) (l : List RenderObject) :
    ∀ (tC : ℝ) (best : Option HitInfo) (h : HitInfo),
      scan_objects ray l tC best = some h →
      (best = some h ∧ ∀ o ∈ l,
          ¬(MIN_T < intersection_test ray o.geometry ∧
            intersection_test ray o.geometry < tC)) ∨
      (∃ pre object post, l = pre ++ object :: post ∧
          MIN_T < intersection_test ray object.geometry ∧
          intersection_test ray object.geometry < tC ∧
          h = mk_hit ray object ∧
          (∀ o ∈ pre, MIN_T < intersection_test ray o.geometry →
              intersection_test ray object.geometry <
                intersection_test ray o.geometry) ∧
          (∀ o ∈ post, MIN_T < intersection_test ray o.geometry →
              intersection_test ray object.geometry ≤
                intersection_test ray o.geometry)) := by
  induction l with
  | nil =>
    intro tC best h hscan
    simp only [scan_objects] at hscan
    exact Or.inl ⟨hscan, by intro o ho; cases ho⟩
  | cons o rest ih =>
    intro tC best h hscan
    simp only [scan_objects] at hscan
    by_cases hcond : MIN_T < intersection_test ray o.geometry ∧
        intersection_test ray o.geometry < tC
    · rw [if_pos hcond] at hscan
      rcases ih _ _ _ hscan with ⟨hbest, hnone⟩ |
        ⟨pre, object, post, heq, h1, h2, h3, hpre, hpost⟩
      · right
        refine ⟨[], o, rest, rfl, hcond.1, hcond.2,
          (Option.some.injEq _ _ ▸ hbest).symm ▸ rfl, ?_, ?_⟩
        · intro o' ho'; cases ho'
        · intro o' ho' hv
          have hne := hnone o' ho'
          have hmk : h = mk_hit ray o := (Option.some.inj hbest).symm
          have hmt : (mk_hit ray o).t = intersection_test ray o.geometry := rfl
          rw [hmk] at *
          by_contra hlt
          exact hne ⟨hv, lt_of_not_le hlt⟩
      · right
        refine ⟨o :: pre, object, post, by rw [heq, List.cons_append], h1,
          lt_trans h2 hcond.2, h3, ?_, hpost⟩
        intro o' ho'
        rcases List.mem_cons.1 ho' with rfl | ho''
        · intro _; exact h2
        · exact hpre o' ho''
    · rw [if_neg hcond] at hscan
      rcases ih _ _ _ hscan with ⟨hbest, hnone⟩ |
        ⟨pre, object, post, heq, h1, h2, h3, hpre, hpost⟩
      · left
        refine ⟨hbest, ?_⟩
        intro o' ho'
        rcases List.mem_cons.1 ho' with rfl | ho''
        · exact hcond
        · exact hnone o' ho''
      · right
        refine ⟨o :: pre, object, post, by rw [heq, List.cons_append], h1, h2, h3,
          ?_, hpost⟩
        intro o' ho'
        rcases List.mem_cons.1 ho' with rfl | ho''
        · intro hv
          have : ¬ intersection_test ray o'.geometry < tC :=
            fun hlt => hcond ⟨hv, hlt⟩
          exact lt_of_lt_of_le h2 (not_lt.1 this)
        · exact hpre o' ho''

/-- C3: when the nearest-hit resolver reports a hit, that hit comes from an
object of the scene whose intersection parameter `t` satisfies
`MIN_T < t < F32_MAX`, is strictly smaller than the valid parameter of every
object before it (so the first object wins exact ties) and weakly smaller
than the valid parameter of every object after it; the recorded hit carries
the intersection point, the outward normal
`normalize(point - sphereCenter)` and that object's material. -/
theorem C3_nearest_hit (ray : Ray) (objects : List RenderObject)
    (h : HitInfo) (hres : resolve_hit ray objects = some h) :
    MIN_T < h.t ∧ h.t < F32_MAX ∧
    ∃ pre object post, objects = pre ++ object :: post ∧
      h.t = intersection_test ray object.geometry ∧
      h.point = ray.at' h.t ∧
      h.normal = normalize (h.point - object.geometry.pos) ∧
      h.material = object.material ∧
      (∀ o ∈ pre, MIN_T < intersection_test ray o.geometry →
          h.t < intersection_test ray o.geometry) ∧
      (∀ o ∈ post, MIN_T < intersection_test ray o.geometry →
          h.t ≤ intersection_test ray o.geometry) := by
  rcases scan_objects_spec ray objects F32_MAX none h hres with ⟨hbest, _⟩ |
    ⟨pre, object, post, heq, h1, h2, h3, hpre, hpost⟩
  · cases hbest
  · have ht : h.t = intersection_test ray object.geometry := by rw [h3]; rfl
    refine ⟨ht ▸ h1, ht ▸ h2, pre, object, post, heq, ht, ?_, ?_, ?_,
      fun o ho hv => ht ▸ hpre o ho hv, fun o ho hv => ht ▸ hpost o ho hv⟩
    · rw [h3]; rfl
    · rw [h3]; rfl
    · rw [h3]; rfl

/-- C6: on a metal hit whose (possibly roughness-perturbed) reflected
direction has non-positive dot product with the surface normal, `cast_ray`
returns pure black with the random state exactly as the perturbation left it
and a result independent of the remaining depth — no recursive trace
happens. -/
theorem C6_metal_absorbed (fuel depth : ℕ) (objects : List RenderObject)
    (ray : Ray) (g g1 : RNG) (hit : HitInfo) (d : v3f)
    (hres : resolve_hit ray objects = some hit)
    (hmetal : hit.material.type = MaterialType.METAL)
    (hdir : metal_reflected_dir ray hit fuel g = some (d, g1))
    (habs : dot d hit.normal ≤ 0) :
    cast_ray fuel objects ray (depth + 1) g = some (COLOUR_BLACK, g1) := by
  simp only [cast_ray, hres, hmetal, hdir]
  rw [if_neg (not_lt.2 habs)]

/-- C6 witness: a ray tangent to a roughness-0 metal sphere — the reflected
direction equals the incoming one and its dot product with the normal is
exactly 0, so the result is black. -/
theorem C6_witness :
    resolve_hit ⟨⟨1, 0, 0⟩, ⟨0, 0, -1⟩⟩
        [⟨create_metal_material ⟨0.94, 0.76, 0.11⟩ 0, ⟨⟨0, 0, -5⟩, 1⟩⟩]
      = some ⟨5, ⟨1, 0, -5⟩, ⟨1, 0, 0⟩, create_metal_material ⟨0.94, 0.76, 0.11⟩ 0⟩ ∧
    metal_reflected_dir ⟨⟨1, 0, 0⟩, ⟨0, 0, -1⟩⟩
        ⟨5, ⟨1, 0, -5⟩, ⟨1, 0, 0⟩, create_metal_material ⟨0.94, 0.76, 0.11⟩ 0⟩ 0
        ⟨fun _ => 0, 0⟩
      = some (⟨0, 0, -1⟩, ⟨fun _ => 0, 0⟩) ∧
    dot ⟨0, 0, -1⟩ (⟨1, 0, 0⟩ : v3f) ≤ 0 ∧
    cast_ray 0 [⟨create_metal_material ⟨0.94, 0.76, 0.11⟩ 0, ⟨⟨0, 0, -5⟩, 1⟩⟩]
        ⟨⟨1, 0, 0⟩, ⟨0, 0, -1⟩⟩ (3 + 1) ⟨fun _ => 0, 0⟩
      = some (COLOUR_BLACK, ⟨fun _ => 0, 0⟩) := by
  have ht : intersection_test ⟨⟨1, 0, 0⟩, ⟨0, 0, -1⟩⟩ ⟨⟨0, 0, -5⟩, 1⟩ = 5 := by
    norm_num [intersection_test, dot, v3f.sub_def]
  have hres : resolve_hit ⟨⟨1, 0, 0⟩, ⟨0, 0, -1⟩⟩
      [⟨create_metal_material ⟨0.94, 0.76, 0.11⟩ 0, ⟨⟨0, 0, -5⟩, 1⟩⟩]
      = some ⟨5, ⟨1, 0, -5⟩, ⟨1, 0, 0⟩, create_metal_material ⟨0.94, 0.76, 0.11⟩ 0⟩ := by
    simp only [resolve_hit, scan_objects, mk_hit, ht]
    rw [if_pos (by norm_num [MIN_T, F32_MAX])]
    norm_num [Ray.at', normalize, norm, norm_squared, dot, v3f.add_def,
      v3f.sub_def, v3f.mul_scalar_def, Real.sqrt_one]
  have hdir : metal_reflected_dir ⟨⟨1, 0, 0⟩, ⟨0, 0, -1⟩⟩
      ⟨5, ⟨1, 0, -5⟩, ⟨1, 0, 0⟩, create_metal_material ⟨0.94, 0.76, 0.11⟩ 0⟩ 0
      ⟨fun _ => 0, 0⟩
      = some (⟨0, 0, -1⟩, ⟨fun _ => 0, 0⟩) := by
    simp only [metal_reflected_dir, create_metal_material]
    rw [if_neg (by norm_num)]
    norm_num [reflect_direction, dot, v3f.add_def, v3f.smul_def]
  have habs : dot ⟨0, 0, -1⟩ (⟨1, 0, 0⟩ : v3f) ≤ 0 := by norm_num [dot]
  exact ⟨hres, hdir, habs, C6_metal_absorbed 0 3 _ _ _ _ _ _ hres rfl hdir habs⟩

/-- C7: when the nearest-hit resolver reports no hit and the remaining depth
is positive, `cast_ray` returns exactly the background gradient
`(1 - ratio)·white + ratio·skyBlue` with `ratio = 0.5·(dir.y + 1)`, leaving
the random state untouched. -/
theorem C7_miss_background (fuel depth : ℕ) (objects : List RenderObject)
    (ray : Ray) (g : RNG) (hres : resolve_hit ray objects = none) :
    cast_ray fuel objects ray (depth + 1) g = some (background_gradient ray, g) ∧
    background_gradient ray =
      (1 - 0.5 * (ray.dir.y + 1)) * COLOUR_WHITE +
        (0.5 * (ray.dir.y + 1)) * (⟨0.5, 0.8, 0.9⟩ : v4f) := by
  constructor
  · simp only [cast_ray, hres]
  · rfl

/-- C7 witness: the empty scene misses, and the straight-up ray produces the
pure sky-blue endpoint of the gradient. -/
theorem C7_witness :
    resolve_hit ⟨⟨0, 0, 0⟩, ⟨0, 1, 0⟩⟩ [] = none ∧
    cast_ray 0 [] ⟨⟨0, 0, 0⟩, ⟨0, 1, 0⟩⟩ (0 + 1) ⟨fun _ => 0, 0⟩
      = some (background_gradient ⟨⟨0, 0, 0⟩, ⟨0, 1, 0⟩⟩, ⟨fun _ => 0, 0⟩) ∧
    background_gradient ⟨⟨0, 0, 0⟩, ⟨0, 1, 0⟩⟩ = ⟨0.5, 0.8, 0.9⟩ := by
  have hres : resolve_hit ⟨⟨0, 0, 0⟩, ⟨0, 1, 0⟩⟩ ([] : List RenderObject) = none := rfl
  refine ⟨hres, (C7_miss_background 0 0 [] ⟨⟨0, 0, 0⟩, ⟨0, 1, 0⟩⟩ ⟨fun _ => 0, 0⟩ hres).1, ?_⟩
  norm_num [background_gradient, v4f.chan_add_def, v4f.chan_smul_def, COLOUR_WHITE]

/-- C3 witness: a one-object scene where the resolver reports the hit at
`t = 4` with the outward unit normal and the object's material, to which the
nearest-hit theorem applies. -/
theorem C3_witness :
    resolve_hit ⟨⟨0, 0, 0⟩, ⟨0, 0, -1⟩⟩
        [⟨create_diffuse_material ⟨1, 0, 0⟩, ⟨⟨0, 0, -5⟩, 1⟩⟩]
      = some ⟨4, ⟨0, 0, -4⟩, ⟨0, 0, 1⟩, create_diffuse_material ⟨1, 0, 0⟩⟩ ∧
    (MIN_T < (4 : ℝ) ∧ (4 : ℝ) < F32_MAX ∧
      ∃ pre object post,
        [(⟨create_diffuse_material ⟨1, 0, 0⟩, ⟨⟨0, 0, -5⟩, 1⟩⟩ : RenderObject)]
          = pre ++ object :: post ∧
        (4 : ℝ) = intersection_test ⟨⟨0, 0, 0⟩, ⟨0, 0, -1⟩⟩ object.geometry ∧
        (⟨0, 0, -4⟩ : v3f) = Ray.at' ⟨⟨0, 0, 0⟩, ⟨0, 0, -1⟩⟩ 4 ∧
        (⟨0, 0, 1⟩ : v3f) = normalize ((⟨0, 0, -4⟩ : v3f) - object.geometry.pos) ∧
        create_diffuse_material ⟨1, 0, 0⟩ = object.material ∧
        (∀ o ∈ pre, MIN_T < intersection_test ⟨⟨0, 0, 0⟩, ⟨0, 0, -1⟩⟩ o.geometry →
            (4 : ℝ) < intersection_test ⟨⟨0, 0, 0⟩, ⟨0, 0, -1⟩⟩ o.geometry) ∧
        (∀ o ∈ post, MIN_T < intersection_test ⟨⟨0, 0, 0⟩, ⟨0, 0, -1⟩⟩ o.geometry →
            (4 : ℝ) ≤ intersection_test ⟨⟨0, 0, 0⟩, ⟨0, 0, -1⟩⟩ o.geometry)) := by
  have ht : intersection_test ⟨⟨0, 0, 0⟩, ⟨0, 0, -1⟩⟩ ⟨⟨0, 0, -5⟩, 1⟩ = 4 := by
    rw [show (4 : ℝ) = (-(-10) - Real.sqrt 4) / 2 by rw [sqrt_four]; norm_num]
    rw [intersection_test]
    norm_num [dot, v3f.sub_def]
  have hres : resolve_hit ⟨⟨0, 0, 0⟩, ⟨0, 0, -1⟩⟩
      [⟨create_diffuse_material ⟨1, 0, 0⟩, ⟨⟨0, 0, -5⟩, 1⟩⟩]
      = some ⟨4, ⟨0, 0, -4⟩, ⟨0, 0, 1⟩, create_diffuse_material ⟨1, 0, 0⟩⟩ := by
    simp only [resolve_hit, scan_objects, mk_hit, ht]
    rw [if_pos (by norm_num [MIN_T, F32_MAX])]
    norm_num [Ray.at', normalize, norm, norm_squared, dot, v3f.add_def,
      v3f.sub_def, v3f.mul_scalar_def, Real.sqrt_one]
  exact ⟨hres, C3_nearest_hit ⟨⟨0, 0, 0⟩, ⟨0, 0, -1⟩⟩ _ _ hres⟩


/-- C9: the claim fails on the code — a scene with an all-ones (non-negative)
albedo metal material of roughness 10, traced from the origin along
`(0,0,-1)` at depth 2 with a random stream constantly `0.75`, yields the
colour `(-0.5, 0.4, 0.7)`: a negative red channel.  The scattered metal ray
keeps its unnormalized direction `(5,5,6)` (the constructor's normalize is a
dead store), so the background gradient extrapolates with `ratio = 3 > 1`
into a negative channel that the non-negative albedo cannot repair. -/
theorem C9_negative_channel :
    (0 : ℝ) ≤ (create_metal_material ⟨1, 1, 1⟩ 10).colour.r ∧
    (0 : ℝ) ≤ (create_metal_material ⟨1, 1, 1⟩ 10).colour.g ∧
    (0 : ℝ) ≤ (create_metal_material ⟨1, 1, 1⟩ 10).colour.b ∧
    cast_ray 1 [⟨create_metal_material ⟨1, 1, 1⟩ 10, ⟨⟨0, 0, -5⟩, 1⟩⟩]
        ⟨⟨0, 0, 0⟩, ⟨0, 0, -1⟩⟩ 2 ⟨fun _ => 0.75, 0⟩
      = some (⟨-0.5, 0.4, 0.7⟩, ⟨fun _ => 0.75, 3⟩) ∧
    (-0.5 : ℝ) < 0 := by
  have ht1 : intersection_test ⟨⟨0, 0, 0⟩, ⟨0, 0, -1⟩⟩ ⟨⟨0, 0, -5⟩, 1⟩ = 4 := by
    rw [show (4 : ℝ) = (-(-10) - Real.sqrt 4) / 2 by rw [sqrt_four]; norm_num]
    rw [intersection_test]
    norm_num [dot, v3f.sub_def]
  have hres1 : resolve_hit ⟨⟨0, 0, 0⟩, ⟨0, 0, -1⟩⟩
      [⟨create_metal_material ⟨1, 1, 1⟩ 10, ⟨⟨0, 0, -5⟩, 1⟩⟩]
      = some ⟨4, ⟨0, 0, -4⟩, ⟨0, 0, 1⟩, create_metal_material ⟨1, 1, 1⟩ 10⟩ := by
    simp only [resolve_hit, scan_objects, mk_hit, ht1]
    rw [if_pos (by norm_num [MIN_T, F32_MAX])]
    norm_num [Ray.at', normalize, norm, norm_squared, dot, v3f.add_def,
      v3f.sub_def, v3f.mul_scalar_def, Real.sqrt_one]
  have hr : ∀ k : ℕ, random_f32_range ⟨fun _ => (0.75 : ℝ), k⟩ (-1) 1
      = some (0.5, ⟨fun _ => (0.75 : ℝ), k + 1⟩) := by
    intro k
    rw [random_f32_range, if_pos (by norm_num : (-1 : ℝ) < 1)]
    simp only [random_f32, RNG.next]
    norm_num
  have hnle : norm ⟨0.5, 0.5, 0.5⟩ ≤ 1 := by
    rw [norm,
      show norm_squared ⟨0.5, 0.5, 0.5⟩ = 0.75 by norm_num [norm_squared, dot]]
    calc Real.sqrt 0.75 ≤ Real.sqrt 1 := Real.sqrt_le_sqrt (by norm_num)
    _ = 1 := Real.sqrt_one
  have hv : random_v3f_range ⟨fun _ => (0.75 : ℝ), 0⟩ (-1) 1
      = some (⟨0.5, 0.5, 0.5⟩, ⟨fun _ => (0.75 : ℝ), 3⟩) := by
    simp only [random_v3f_range, hr]
  have hsample : random_point_in_unit_sphere 1 ⟨fun _ => (0.75 : ℝ), 0⟩
      = some (⟨0.5, 0.5, 0.5⟩, ⟨fun _ => (0.75 : ℝ), 3⟩) := by
    rw [show (1 : ℕ) = 0 + 1 from rfl]
    simp only [random_point_in_unit_sphere, hv]
    rw [if_pos hnle]
  have hpis : random_point_in_sphere 1 (sphere_construct ⟨0, 0, -3⟩ 10)
      ⟨fun _ => (0.75 : ℝ), 0⟩
      = some (⟨5, 5, 2⟩, ⟨fun _ => (0.75 : ℝ), 3⟩) := by
    simp only [random_point_in_sphere, hsample, sphere_construct]
    norm_num [v3f.mul_scalar_def, v3f.add_def]
  have hrefl : reflect_direction ⟨0, 0, -1⟩ ⟨0, 0, 1⟩ = ⟨0, 0, 1⟩ := by
    norm_num [reflect_direction, dot, v3f.add_def, v3f.smul_def]
  have hrough : (create_metal_material (⟨1, 1, 1⟩ : v4f) 10).roughness = 10 := rfl
  have hmrd : metal_reflected_dir ⟨⟨0, 0, 0⟩, ⟨0, 0, -1⟩⟩
      ⟨4, ⟨0, 0, -4⟩, ⟨0, 0, 1⟩, create_metal_material ⟨1, 1, 1⟩ 10⟩ 1
      ⟨fun _ => (0.75 : ℝ), 0⟩
      = some (⟨5, 5, 6⟩, ⟨fun _ => (0.75 : ℝ), 3⟩) := by
    simp only [metal_reflected_dir, hrefl, hrough]
    rw [if_pos (by norm_num : (0 : ℝ) < 10)]
    rw [show (⟨0, 0, -4⟩ : v3f) + ⟨0, 0, 1⟩ = ⟨0, 0, -3⟩ by
      rw [v3f.add_def]; norm_num]
    simp only [hpis]
    rw [v3f.sub_def]
    norm_num
  have ht2 : intersection_test ⟨⟨0, 0, -4⟩, ⟨5, 5, 6⟩⟩ ⟨⟨0, 0, -5⟩, 1⟩ = -12 := by
    rw [show (-12 : ℝ) = (-(12) - Real.sqrt 144) / 2 by
      rw [sqrt_onefourfour]; norm_num]
    rw [intersection_test]
    norm_num [dot, v3f.sub_def]
  have hres2 : resolve_hit ⟨⟨0, 0, -4⟩, ⟨5, 5, 6⟩⟩
      [⟨create_metal_material ⟨1, 1, 1⟩ 10, ⟨⟨0, 0, -5⟩, 1⟩⟩] = none := by
    simp only [resolve_hit, scan_objects, ht2]
    rw [if_neg (by norm_num [MIN_T])]
  have hconstruct : Ray.construct ⟨0, 0, -4⟩ ⟨5, 5, 6⟩ false
      = (⟨⟨0, 0, -4⟩, ⟨5, 5, 6⟩⟩ : Ray) := rfl
  have hrec : cast_ray 1 [⟨create_metal_material ⟨1, 1, 1⟩ 10, ⟨⟨0, 0, -5⟩, 1⟩⟩]
      ⟨⟨0, 0, -4⟩, ⟨5, 5, 6⟩⟩ (0 + 1) ⟨fun _ => (0.75 : ℝ), 3⟩
      = some (background_gradient ⟨⟨0, 0, -4⟩, ⟨5, 5, 6⟩⟩,
          ⟨fun _ => (0.75 : ℝ), 3⟩) := by
    simp only [cast_ray, hres2]
  have hbg : background_gradient ⟨⟨0, 0, -4⟩, ⟨5, 5, 6⟩⟩ = ⟨-0.5, 0.4, 0.7⟩ := by
    norm_num [background_gradient, v4f.chan_add_def, v4f.chan_smul_def, COLOUR_WHITE]
  have htype : (create_metal_material (⟨1, 1, 1⟩ : v4f) 10).type
      = MaterialType.METAL := rfl
  have hcol : (create_metal_material (⟨1, 1, 1⟩ : v4f) 10).colour
      = (⟨1, 1, 1⟩ : v4f) := rfl
  refine ⟨by rw [hcol]; norm_num, by rw [hcol]; norm_num, by rw [hcol]; norm_num,
    ?_, by norm_num⟩
  rw [show (2 : ℕ) = (0 + 1) + 1 from rfl]
  generalize hd : (0 : ℕ) + 1 = d
  simp only [cast_ray, hres1, htype, hmrd, hconstruct]
  rw [if_pos (by norm_num [dot] : (0 : ℝ) < dot ⟨5, 5, 6⟩ ⟨0, 0, 1⟩)]
  subst hd
  rw [hrec]
  simp only [hbg, hcol]
  norm_num [hadamard]

end SimpleRaytracer
